import Mathlib

/-!
Verification of the AI-image-generator backend (`src/backend/server.js`).

The JavaScript code is shallowly embedded in Lean:
* JS numbers are modelled as rationals (`ℚ`); `Math.floor` is `Int.floor`.
* `Math.random()` is modelled as a stream `Nat → ℚ` of values in `[0, 1)`,
  consumed left to right with an explicit counter.
* Strings are worked with at the level of their character lists, so that the
  JS string operations (`split(' ')`, `slice`, `toLowerCase`, `trim`,
  `replace(/:/g,'-')`) have direct, easily auditable translations.
* The `Date` at an instant is modelled by a `Clock` record of calendar
  fields (including milliseconds, which `toISOString().split('T')[0]` and
  `toTimeString()` both discard).
* The canvas 2D context is modelled as a record of the drawing state the
  program touches (`globalAlpha`, `fillStyle`, `strokeStyle`, `lineWidth`),
  a save/restore stack, and a log of the primitives drawn.  Per the HTML
  canvas specification, the initial `strokeStyle` and `fillStyle` are the
  color `#000000`, `globalAlpha` is 1 and `lineWidth` is 1; the program
  never assigns `strokeStyle`.
-/

/-! ### Rendering of numbers to decimal strings

Models the decimal formatting JS performs when interpolating integers into
template strings and when `Date` formats its fields. -/

/-- The decimal digit character for `n % 10`. -/
def digitChar (n : Nat) : Char :=
  match n % 10 with
  | 0 => '0' | 1 => '1' | 2 => '2' | 3 => '3' | 4 => '4'
  | 5 => '5' | 6 => '6' | 7 => '7' | 8 => '8' | _ => '9'

/-- Decimal digits of `n`, most significant first; fuel-indexed recursion. -/
def natCharsAux : Nat → Nat → List Char
  | 0, _ => []
  | fuel + 1, n => if n < 10 then [digitChar n] else natCharsAux fuel (n / 10) ++ [digitChar (n % 10)]

/-- Decimal digits of `n`, most significant first. -/
def natChars (n : Nat) : List Char := natCharsAux (n + 1) n

/-- Decimal string of `n`. -/
def natStr (n : Nat) : String := ⟨natChars n⟩

/-- Left-pad the decimal form of `n` with zeros to width `w` (as the JS
`Date` formatters do for two-digit fields). -/
def padTo (w n : Nat) : String := ⟨List.replicate (w - (natChars n).length) '0' ++ natChars n⟩

/-- Two-digit zero-padded field, e.g. hours and minutes. -/
def pad2 (n : Nat) : String := padTo 2 n

/-- Three-digit zero-padded field (milliseconds in `toISOString`). -/
def pad3 (n : Nat) : String := padTo 3 n

/-- Four-digit zero-padded field (the year in `toISOString`). -/
def pad4 (n : Nat) : String := padTo 4 n

theorem digitChar_isDigit (n : Nat) : (digitChar n).isDigit = true := by
  unfold digitChar; split <;> decide

theorem natCharsAux_isDigit (fuel n : Nat) : ∀ c ∈ natCharsAux fuel n, c.isDigit = true := by
  induction fuel generalizing n with
  | zero => intro c hc; simp [natCharsAux] at hc
  | succ fuel ih =>
    intro c hc
    simp only [natCharsAux] at hc
    split at hc
    · simp at hc; subst hc; exact digitChar_isDigit n
    · rcases List.mem_append.mp hc with h | h
      · exact ih _ c h
      · simp at h; subst h; exact digitChar_isDigit _

theorem natChars_isDigit (n : Nat) : ∀ c ∈ natChars n, c.isDigit = true :=
  natCharsAux_isDigit _ n

theorem padTo_isDigit (w n : Nat) : ∀ c ∈ (padTo w n).data, c.isDigit = true := by
  intro c hc
  rcases List.mem_append.mp hc with h | h
  · rw [List.eq_of_mem_replicate h]; decide
  · exact natChars_isDigit n c h

/-! ### Character-level models of the JS string operations used -/

/-- Models `s.split(' ')`: splits at every single space, keeping empty
fields, and yields `[""]` on the empty string. -/
def splitSp : List Char → List (List Char)
  | [] => [[]]
  | c :: cs =>
    match splitSp cs with
    | [] => [[]]
    | w :: ws => if c = ' ' then [] :: w :: ws else (c :: w) :: ws

/-- Models `prompt.split(' ')` on strings. -/
def jsSplit (s : String) : List String := (splitSp s.data).map String.mk

/-- Interleaves `sep` between the given chunks (the core of `join`). -/
def joinSep (sep : Char) : List (List Char) → List Char
  | [] => []
  | [w] => w
  | w :: ws => w ++ sep :: joinSep sep ws

/-- Models `arr.join('-')`. -/
def joinHyphen (ws : List String) : String := ⟨joinSep '-' (ws.map String.data)⟩

/-- Models `s.toLowerCase()` (ASCII letters, which is all the code relies on). -/
def jsToLower (s : String) : String := ⟨s.data.map Char.toLower⟩

/-- Models `s.replace(/:/g, '-')`: both pattern and replacement are single
characters, so the replacement is a character map. -/
def replaceColons (s : String) : String :=
  ⟨s.data.map (fun ch => if ch = ':' then '-' else ch)⟩

/-- Models `s.slice(0, n)`. -/
def jsSlice (n : Nat) (s : String) : String := ⟨s.data.take n⟩

/-- Models `s.trim()` (the code only ever feeds it prompts; ASCII whitespace). -/
def jsTrim (s : String) : String :=
  ⟨((s.data.dropWhile Char.isWhitespace).reverse.dropWhile Char.isWhitespace).reverse⟩

theorem splitSp_ne_nil (l : List Char) : splitSp l ≠ [] := by
  cases l with
  | nil => simp [splitSp]
  | cons c cs =>
    simp only [splitSp]
    cases splitSp cs with
    | nil => simp
    | cons w ws => by_cases hc : c = ' ' <;> simp [hc]

theorem jsSplit_ne_nil (s : String) : jsSplit s ≠ [] := by
  unfold jsSplit
  intro h
  exact splitSp_ne_nil s.data (List.map_eq_nil_iff.mp h)

/-- `trim` erases the whole string exactly when every character is whitespace. -/
theorem jsTrim_eq_empty_iff (s : String) :
    jsTrim s = "" ↔ s.data.all Char.isWhitespace = true := by
  unfold jsTrim
  constructor
  · intro h
    have hdata : ((s.data.dropWhile Char.isWhitespace).reverse.dropWhile Char.isWhitespace).reverse = ([] : List Char) := congrArg String.data h
    rw [List.reverse_eq_nil_iff, List.dropWhile_eq_nil_iff] at hdata
    rw [List.all_eq_true]
    intro c hc
    rcases List.mem_append.mp ((List.takeWhile_append_dropWhile Char.isWhitespace s.data) ▸ hc) with h1 | h1
    · exact List.mem_takeWhile_imp h1
    · exact hdata c (List.mem_reverse.mpr h1)
  · intro h
    have : s.data.dropWhile Char.isWhitespace = [] := by
      rw [List.dropWhile_eq_nil_iff]
      intro c hc
      exact (List.all_eq_true.mp h) c hc
    simp [this]

/-! ### The clock -/

/-- A snapshot of `new Date()`: the calendar fields the program formats.
`toISOString().split('T')[0]` reads year/month/day; `toTimeString()` reads
hour/minute/second; milliseconds exist on the date object but appear in
none of the formats the filename uses. -/
structure Clock where
  year : Nat
  month : Nat
  day : Nat
  hour : Nat
  minute : Nat
  second : Nat
  millis : Nat
deriving DecidableEq, Repr

/-- Models `timestamp.toISOString().split('T')[0]`, i.e. `YYYY-MM-DD`. -/
def Clock.dateStr (c : Clock) : String :=
  pad4 c.year ++ "-" ++ pad2 c.month ++ "-" ++ pad2 c.day

/-- Models `timestamp.toTimeString().split(' ')[0]`, i.e. `HH:MM:SS`. -/
def Clock.timeHMS (c : Clock) : String :=
  pad2 c.hour ++ ":" ++ pad2 c.minute ++ ":" ++ pad2 c.second

/-- Models `new Date().toISOString()` (timestamp field of responses). -/
def Clock.isoString (c : Clock) : String :=
  c.dateStr ++ "T" ++ pad2 c.hour ++ ":" ++ pad2 c.minute ++ ":" ++ pad2 c.second ++ "." ++ pad3 c.millis ++ "Z"

/-! ### The filename generator (`generateFilename`, server.js lines 151-159) -/

/-- Translation of `generateFilename(prompt, style)`.  The UUID produced by
`uuidv4()` is passed in as the `uuid` argument (the code keeps only its
first six characters). -/
def generateFilename (clock : Clock) (uuid : String) (prompt style : String) : String :=
  let dateStr := clock.dateStr
  let timeStr := replaceColons clock.timeHMS
  let promptShort := jsToLower (joinHyphen ((jsSplit prompt).take 3))
  let randomId := jsSlice 6 uuid
  "ai-" ++ style ++ "-" ++ dateStr ++ "-" ++ timeStr ++ "-" ++ promptShort ++ "-" ++ randomId ++ ".png"

/-- The part of the filename after `ai-{style}-`; it does not depend on the
style, so the style string is embedded verbatim between fixed delimiters. -/
def filenameTail (clock : Clock) (uuid : String) (prompt : String) : String :=
  clock.dateStr ++ "-" ++ replaceColons clock.timeHMS ++ "-" ++
    jsToLower (joinHyphen ((jsSplit prompt).take 3)) ++ "-" ++ jsSlice 6 uuid ++ ".png"

theorem generateFilename_eq_tail (clock : Clock) (uuid prompt style : String) :
    generateFilename clock uuid prompt style = "ai-" ++ style ++ "-" ++ filenameTail clock uuid prompt := by
  unfold generateFilename filenameTail
  simp [String.append_assoc]

/-- Everything in the filename before the random id. -/
def filenamePre (clock : Clock) (prompt style : String) : String :=
  "ai-" ++ style ++ "-" ++ clock.dateStr ++ "-" ++ replaceColons clock.timeHMS ++ "-" ++
    jsToLower (joinHyphen ((jsSplit prompt).take 3)) ++ "-"

theorem generateFilename_decomp (clock : Clock) (uuid prompt style : String) :
    generateFilename clock uuid prompt style =
      filenamePre clock prompt style ++ jsSlice 6 uuid ++ ".png" := rfl

theorem map_eq_self_of (f : Char → Char) :
    ∀ l : List Char, (∀ c ∈ l, f c = c) → l.map f = l := by
  intro l h
  induction l with
  | nil => rfl
  | cons c cs ih =>
    simp only [List.map_cons]
    rw [h c (by simp), ih (fun x hx => h x (by simp [hx]))]

theorem ne_colon_of_isDigit {c : Char} (h : c.isDigit = true) : c ≠ ':' := by
  rintro rfl
  exact absurd h (by decide)

/-- Replacing colons by hyphens in `HH:MM:SS` gives `HH-MM-SS`. -/
theorem replaceColons_timeHMS (c : Clock) :
    replaceColons c.timeHMS =
      pad2 c.hour ++ "-" ++ pad2 c.minute ++ "-" ++ pad2 c.second := by
  apply String.ext
  unfold replaceColons Clock.timeHMS
  simp only [String.data_append, List.map_append]
  have hc : ((":" : String).data.map fun ch => if ch = ':' then '-' else ch) = ("-" : String).data := rfl
  have hp : ∀ n, ((pad2 n).data.map fun ch => if ch = ':' then '-' else ch) = (pad2 n).data := by
    intro n
    apply map_eq_self_of
    intro x hx
    simp [ne_colon_of_isDigit (padTo_isDigit 2 n x hx)]
  rw [hc, hp, hp, hp]

/-- Joining with hyphens commutes with lowercasing (`'-'` is unaffected). -/
theorem map_toLower_joinSep (ls : List (List Char)) :
    (joinSep '-' ls).map Char.toLower = joinSep '-' (ls.map (List.map Char.toLower)) := by
  induction ls with
  | nil => rfl
  | cons w ws ih =>
    cases ws with
    | nil => rfl
    | cons w2 ws2 =>
      simp only [joinSep, List.map_cons, List.map_append] at *
      rw [← ih]
      simp [show Char.toLower '-' = '-' from rfl]

theorem jsToLower_joinHyphen (ws : List String) :
    jsToLower (joinHyphen ws) = joinHyphen (ws.map jsToLower) := by
  apply String.ext
  show (joinSep '-' (ws.map String.data)).map Char.toLower =
    joinSep '-' ((ws.map jsToLower).map String.data)
  rw [map_toLower_joinSep]
  congr 1
  simp only [List.map_map]
  rfl

/-- C2: the filename is exactly
`ai-{style}-{YYYY-MM-DD}-{HH-MM-SS}-{first 3 words of prompt, space to hyphen,
lowercased}-{6-character random id}.png`: the date and time fields come from
the clock snapshot taken at generation, the prompt part is the first three
space-separated fields of the prompt, each lowercased, joined by hyphens, and
the random id is the first 6 characters of the UUID (so it has length 6
whenever the UUID has at least 6 characters, which a v4 UUID always has). -/
theorem generateFilename_format (clock : Clock) (uuid prompt style : String)
    (hu : 6 ≤ uuid.length) :
    generateFilename clock uuid prompt style =
      "ai-" ++ style ++ "-" ++ clock.dateStr ++ "-" ++
        (pad2 clock.hour ++ "-" ++ pad2 clock.minute ++ "-" ++ pad2 clock.second) ++ "-" ++
        joinHyphen (((jsSplit prompt).take 3).map jsToLower) ++ "-" ++
        jsSlice 6 uuid ++ ".png" ∧
    (jsSlice 6 uuid).length = 6 := by
  constructor
  · unfold generateFilename
    rw [replaceColons_timeHMS, jsToLower_joinHyphen]
  · obtain ⟨l⟩ := uuid
    simp only [jsSlice, String.length] at *
    simp [List.length_take, Nat.min_eq_left hu]

def clk0 : Clock := ⟨2025, 3, 7, 4, 5, 6, 789⟩

theorem generateFilename_format_witness :
    6 ≤ ("123e4567-e89b" : String).length ∧
      (generateFilename clk0 "123e4567-e89b" "A Calm Lake at Dawn" "ocean" =
        "ai-" ++ "ocean" ++ "-" ++ clk0.dateStr ++ "-" ++
          (pad2 clk0.hour ++ "-" ++ pad2 clk0.minute ++ "-" ++ pad2 clk0.second) ++ "-" ++
          joinHyphen (((jsSplit "A Calm Lake at Dawn").take 3).map jsToLower) ++ "-" ++
          jsSlice 6 "123e4567-e89b" ++ ".png" ∧
        (jsSlice 6 "123e4567-e89b").length = 6) :=
  ⟨by decide, generateFilename_format clk0 "123e4567-e89b" "A Calm Lake at Dawn" "ocean" (by decide)⟩

def clk1 : Clock := ⟨2025, 3, 7, 4, 5, 6, 0⟩

def clk2 : Clock := ⟨2025, 3, 7, 4, 5, 6, 999⟩

/-- C3 counterexample: two distinct generation events — different prompts
(differing in letter case) taken at two instants that differ only in their
millisecond field — produce the very same filename: the timestamp embedded
in the filename has one-second resolution, not sub-second, and with equal
random ids the filenames collide, so uniqueness is not enforced. -/
theorem filename_uniqueness_cex :
    generateFilename clk1 "123e4567-e89b" "Hello World" "abstract" =
      generateFilename clk2 "123e4567-e89b" "HELLO WORLD" "abstract" ∧
    clk1 ≠ clk2 ∧ ("Hello World" : String) ≠ "HELLO WORLD" := by
  refine ⟨by decide, by decide, by decide⟩

/-- C3 (amended): filenames embed a one-second-resolution timestamp plus a
6-character random prefix of a UUID; two generations in the same clock second
get distinct filenames whenever their random prefixes differ, but uniqueness
is not absolutely enforced (equal prefixes in the same second collide). -/
theorem filename_random_prefix_separates (clock : Clock) (prompt style : String)
    (u1 u2 : String) (h : jsSlice 6 u1 ≠ jsSlice 6 u2) :
    generateFilename clock u1 prompt style ≠ generateFilename clock u2 prompt style := by
  intro heq
  apply h
  rw [generateFilename_decomp, generateFilename_decomp] at heq
  have hd := congrArg String.data heq
  simp only [String.data_append] at hd
  exact String.ext (List.append_cancel_left (List.append_cancel_right hd))

theorem filename_random_prefix_separates_witness :
    jsSlice 6 "aaaaaa-111" ≠ jsSlice 6 "bbbbbb-222" ∧
      generateFilename clk1 "aaaaaa-111" "a calm lake" "tech" ≠
        generateFilename clk1 "bbbbbb-222" "a calm lake" "tech" :=
  ⟨by decide, filename_random_prefix_separates clk1 "a calm lake" "tech" "aaaaaa-111" "bbbbbb-222" (by decide)⟩

/-! ### The style palette table (`aiTemplates`, server.js lines 29-35) -/

/-- The fixed style-to-palette table, in declaration order. -/
def aiTemplates : List (String × List String) :=
  [("abstract", ["#FF6B6B", "#4ECDC4", "#45B7D1", "#96CEB4", "#FFEAA7"]),
   ("nature", ["#2E8B57", "#3CB371", "#98FB98", "#8FBC8F", "#00FA9A"]),
   ("tech", ["#4169E1", "#1E90FF", "#00BFFF", "#87CEEB", "#4682B4"]),
   ("sunset", ["#FF6B6B", "#FFA726", "#FFEAA7", "#FD79A8", "#E17055"]),
   ("ocean", ["#0077B6", "#00B4D8", "#90E0EF", "#CAF0F8", "#03045E"])]

/-- Models `aiTemplates[style] || aiTemplates.abstract` (line 41): the
style's own palette when the key is present, the abstract palette otherwise. -/
def paletteFor (style : String) : List String :=
  (aiTemplates.lookup style).getD ((aiTemplates.lookup "abstract").getD [])

/-! ### The canvas context and the shape generator
(`generateAIShapes`, server.js lines 63-104) -/

/-- A stream of `Math.random()` outputs, consumed left to right. -/
abbrev RSrc := Nat → ℚ

/-- Every value a genuine `Math.random()` can produce lies in `[0, 1)`. -/
def validR (r : RSrc) : Prop := ∀ i, 0 ≤ r i ∧ r i < 1

/-- A canvas paint style: a CSS color string or the linear gradient the
code builds from the first two palette colors. -/
inductive FillStyle where
  | color (c : String)
  | grad (stop0 stop1 : String)
deriving DecidableEq, Repr

/-- The context state the program touches.  Canvas defaults: alpha 1,
fill and stroke `#000000`, line width 1; the program never assigns
`strokeStyle`. -/
structure CtxState where
  globalAlpha : ℚ
  fillStyle : FillStyle
  strokeStyle : FillStyle
  lineWidth : ℚ
deriving DecidableEq, Repr

/-- A drawn primitive, recording the draw-call geometry together with the
paint state in effect when it was filled or stroked.  `circle` keeps the
`arc` center and radius; `rect` the `fillRect` arguments; `tri` the three
path vertices; `line` the two endpoints, the stroke width, the
`strokeStyle` used by `stroke()`, the `fillStyle` that was set (but not
used) for the shape, and the alpha. -/
inductive Prim where
  | circle (x y radius : ℚ) (paint : FillStyle) (alpha : ℚ)
  | rect (x y w h : ℚ) (paint : FillStyle) (alpha : ℚ)
  | tri (x1 y1 x2 y2 x3 y3 : ℚ) (paint : FillStyle) (alpha : ℚ)
  | line (x1 y1 x2 y2 lw : ℚ) (stroke fillState : FillStyle) (alpha : ℚ)
deriving DecidableEq, Repr

/-- The paint a primitive is actually rendered with: the fill style for
the filled kinds, the stroke style for lines. -/
def Prim.paint : Prim → FillStyle
  | .circle _ _ _ paint _ => paint
  | .rect _ _ _ _ paint _ => paint
  | .tri _ _ _ _ _ _ paint _ => paint
  | .line _ _ _ _ _ stroke _ _ => stroke

/-- The canvas 2D context: current state, the `save`/`restore` stack, and
the log of primitives drawn so far. -/
structure Ctx where
  state : CtxState
  stack : List CtxState
  drawn : List Prim
deriving DecidableEq, Repr

/-- Models `ctx.save()`. -/
def Ctx.save (c : Ctx) : Ctx := { c with stack := c.state :: c.stack }

/-- Models `ctx.restore()` (no-op on an empty stack, per the canvas spec). -/
def Ctx.restore (c : Ctx) : Ctx :=
  match c.stack with
  | [] => c
  | s :: rest => { state := s, stack := rest, drawn := c.drawn }

/-- Appends one drawn primitive to the log. -/
def Ctx.draw (c : Ctx) (p : Prim) : Ctx := { c with drawn := c.drawn ++ [p] }

/-- One iteration of the loop body of `generateAIShapes` (lines 66-102):
sample `shapeType`, `x`, `y`, `size`, `color`, `alpha` (six `Math.random()`
calls, in that order), then `save`, set `globalAlpha` and `fillStyle`,
draw by `shapeType` (`case 3` draws two further samples: the stroke width,
then the vertical offset of the line end), and `restore`.  Returns the new
context and the next random-stream index. -/
def drawShape (colors : List String) (r : RSrc) (c : Ctx) (k : Nat) : Ctx × Nat :=
  let t : ℤ := ⌊r k * 4⌋
  let x : ℚ := r (k + 1) * 800
  let y : ℚ := r (k + 2) * 600
  let size : ℚ := 10 + r (k + 3) * 100
  let color : String := colors.getD (Int.toNat ⌊r (k + 4) * (colors.length : ℚ)⌋) ""
  let alpha : ℚ := 0.2 + r (k + 5) * 0.5
  let c1 : Ctx := { c.save with state := { c.save.state with globalAlpha := alpha, fillStyle := .color color } }
  if t = 0 then
    ((c1.draw (.circle x y (size / 2) c1.state.fillStyle c1.state.globalAlpha)).restore, k + 6)
  else if t = 1 then
    ((c1.draw (.rect x y size (size * 0.6) c1.state.fillStyle c1.state.globalAlpha)).restore, k + 6)
  else if t = 2 then
    ((c1.draw (.tri x (y - size / 2) (x - size / 2) (y + size / 2) (x + size / 2) (y + size / 2)
        c1.state.fillStyle c1.state.globalAlpha)).restore, k + 6)
  else if t = 3 then
    let lw : ℚ := 2 + r (k + 6) * 8
    let c2 : Ctx := { c1 with state := { c1.state with lineWidth := lw } }
    ((c2.draw (.line x y (x + size) (y + (r (k + 7) - 0.5) * 100) c2.state.lineWidth
        c2.state.strokeStyle c2.state.fillStyle c2.state.globalAlpha)).restore, k + 8)
  else (c1.restore, k + 6)

/-- The `for (let i = 0; i < 20; i++)` loop, counted down. -/
def shapesLoop (colors : List String) (r : RSrc) : Nat → Ctx → Nat → Ctx × Nat
  | 0, c, k => (c, k)
  | n + 1, c, k =>
    let step := drawShape colors r c k
    shapesLoop colors r n step.1 step.2

/-- Translation of `generateAIShapes(ctx, colors)`. -/
def generateAIShapes (colors : List String) (r : RSrc) (c : Ctx) (k : Nat) : Ctx × Nat :=
  shapesLoop colors r 20 c k

/-! ### The text wrapper (`addAIText`, server.js lines 106-141) -/

/-- The greedy line-fill loop of `addAIText`: `measure` models
`ctx.measureText(·).width` under the fixed `bold 32px Arial` font. -/
def wrapLoop (measure : String → ℚ) : List String → String → List String → List String
  | [], current, lines => lines ++ [current]
  | w :: ws, current, lines =>
    let testLine := current ++ " " ++ w
    if measure testLine < 700 then wrapLoop measure ws testLine lines
    else wrapLoop measure ws w (lines ++ [current])

/-- The word-wrap performed by `addAIText`: split the prompt at spaces,
seed the current line with `words[0]`, then greedily extend.  `jsSplit`
never returns `[]`, so the first branch is unreachable. -/
def wrapText (measure : String → ℚ) (prompt : String) : List String :=
  match jsSplit prompt with
  | [] => [""]
  | w :: ws => wrapLoop measure ws w []

/-! ### The image composer (`generateAIImage`, server.js lines 38-61) -/

/-- The composed image: the two gradient stops of the background fill
(`colors[0]`, `colors[1]`), the logged shape primitives, the wrapped
prompt lines, and the signature caption. -/
structure AIImage where
  gradStop0 : String
  gradStop1 : String
  shapes : List Prim
  textLines : List String
  signature : String
deriving DecidableEq, Repr

/-- The context state when `generateAIShapes` starts: canvas defaults
except that `fillStyle` still holds the background gradient. -/
def initShapeCtx (colors : List String) : Ctx :=
  { state := { globalAlpha := 1, fillStyle := .grad (colors.getD 0 "") (colors.getD 1 ""),
               strokeStyle := .color "#000000", lineWidth := 1 },
    stack := [], drawn := [] }

/-- Translation of `generateAIImage(prompt, style)`.  `measure` models the
canvas text metrics, `localeDate` the `toLocaleDateString()` output used in
the signature. -/
def generateAIImage (measure : String → ℚ) (r : RSrc) (localeDate : String)
    (prompt style : String) : AIImage :=
  let colors := paletteFor style
  { gradStop0 := colors.getD 0 "",
    gradStop1 := colors.getD 1 "",
    shapes := ((generateAIShapes colors r (initShapeCtx colors) 0).1).drawn,
    textLines := wrapText measure prompt,
    signature := "AI Generated • " ++ localeDate ++ " • Dynamic Art" }

/-! ### Range predicates for the sampled shape parameters -/

/-- Position within the 800x600 canvas. -/
def posb (x y : ℚ) : Bool := decide (0 ≤ x) && decide (x < 800) && decide (0 ≤ y) && decide (y < 600)

/-- Size in `[10, 110)`. -/
def sizeb (s : ℚ) : Bool := decide (10 ≤ s) && decide (s < 110)

/-- Opacity in `[0.2, 0.7)`. -/
def alphab (a : ℚ) : Bool := decide (0.2 ≤ a) && decide (a < 0.7)

/-- Stroke width in `[2, 10)`. -/
def lwb (w : ℚ) : Bool := decide (2 ≤ w) && decide (w < 10)

/-- Is the paint a solid color from the palette? -/
def paintIn (colors : List String) : FillStyle → Bool
  | .color c => colors.contains c
  | .grad _ _ => false

/-- What actually holds of every drawn primitive: position, size, opacity
(and stroke width) in the stated ranges; the fill paint of circles,
rectangles and triangles is a palette color; a line's fill *state* is a
palette color but its stroke paint is the default black, and its vertical
offset lies in the half-open interval `[-50, 50)`.  The triangle and line
geometry is checked through the recorded vertices. -/
def primOkb (colors : List String) : Prim → Bool
  | .circle x y radius paint a =>
      posb x y && sizeb (2 * radius) && paintIn colors paint && alphab a
  | .rect x y w _ paint a =>
      posb x y && sizeb w && paintIn colors paint && alphab a
  | .tri x1 y1 x2 y2 x3 y3 paint a =>
      posb x1 (y2 - (x3 - x2) / 2) && sizeb (x3 - x2) && decide (y1 = y2 - (x3 - x2)) &&
        decide (x2 = x1 - (x3 - x2) / 2) && decide (x3 = x1 + (x3 - x2) / 2) && decide (y3 = y2) &&
        paintIn colors paint && alphab a
  | .line x1 y1 x2 y2 lw stroke fillState a =>
      posb x1 y1 && sizeb (x2 - x1) && decide (-50 ≤ y2 - y1) && decide (y2 - y1 < 50) &&
        lwb lw && decide (stroke = FillStyle.color "#000000") && paintIn colors fillState && alphab a

/-- The property claimed by the specification: as `primOkb`, but the color
every primitive is *drawn* with comes from the palette (for a line, its
stroke paint), and the line offset lies in the open interval `(-50, 50)`. -/
def primOkClaimb (colors : List String) : Prim → Bool
  | .circle x y radius paint a =>
      posb x y && sizeb (2 * radius) && paintIn colors paint && alphab a
  | .rect x y w _ paint a =>
      posb x y && sizeb w && paintIn colors paint && alphab a
  | .tri x1 y1 x2 y2 x3 y3 paint a =>
      posb x1 (y2 - (x3 - x2) / 2) && sizeb (x3 - x2) && decide (y1 = y2 - (x3 - x2)) &&
        decide (x2 = x1 - (x3 - x2) / 2) && decide (x3 = x1 + (x3 - x2) / 2) && decide (y3 = y2) &&
        paintIn colors paint && alphab a
  | .line x1 y1 x2 y2 lw stroke _ a =>
      posb x1 y1 && sizeb (x2 - x1) && decide (-50 < y2 - y1) && decide (y2 - y1 < 50) &&
        lwb lw && paintIn colors stroke && alphab a

theorem getD_mem {α : Type} (l : List α) (n : Nat) (d : α) (h : n < l.length) :
    l.getD n d ∈ l := by
  induction l generalizing n with
  | nil => simp at h
  | cons a as ih =>
    cases n with
    | zero => simp [List.getD]
    | succ m =>
      simp only [List.getD_cons_succ]
      exact List.mem_cons_of_mem _ (ih m (by simpa using h))

set_option maxHeartbeats 4000000 in
/-- Each loop iteration draws exactly one primitive satisfying `primOkb`,
restores the context state and stack, and advances the random stream.  The
`strokeStyle` hypothesis holds throughout a render because the program
never assigns it and each iteration restores the saved state. -/
theorem drawShape_spec (colors : List String) (r : RSrc) (c : Ctx) (k : Nat)
    (hr : validR r) (hc : colors ≠ [])
    (hstroke : c.state.strokeStyle = FillStyle.color "#000000") :
    ∃ p kn, drawShape colors r c k = ({ c with drawn := c.drawn ++ [p] }, kn) ∧
      primOkb colors p = true := by
  have h0 := hr k
  have h1 := hr (k + 1)
  have h2 := hr (k + 2)
  have h3 := hr (k + 3)
  have h4 := hr (k + 4)
  have h5 := hr (k + 5)
  have h6 := hr (k + 6)
  have h7 := hr (k + 7)
  have hlen : 0 < colors.length := List.length_pos.mpr hc
  have hlenq : (0 : ℚ) < (colors.length : ℚ) := by exact_mod_cast hlen
  -- the sampled color is a member of the palette
  have hidx : Int.toNat ⌊r (k + 4) * (colors.length : ℚ)⌋ < colors.length := by
    have hf0 : (0 : ℤ) ≤ ⌊r (k + 4) * (colors.length : ℚ)⌋ :=
      Int.floor_nonneg.mpr (mul_nonneg h4.1 hlenq.le)
    have hflt : ⌊r (k + 4) * (colors.length : ℚ)⌋ < (colors.length : ℤ) := by
      apply Int.floor_lt.mpr
      push_cast
      nlinarith [h4.2, hlenq]
    omega
  have hcontains : colors.contains (colors.getD (Int.toNat ⌊r (k + 4) * (colors.length : ℚ)⌋) "") = true :=
    List.elem_iff.mpr (getD_mem colors _ "" hidx)
  -- the shape-type switch hits exactly one of the four cases
  have ht0 : (0 : ℤ) ≤ ⌊r k * 4⌋ := Int.floor_nonneg.mpr (by nlinarith [h0.1])
  have ht4 : ⌊r k * 4⌋ < (4 : ℤ) := by
    apply Int.floor_lt.mpr
    push_cast
    nlinarith [h0.2]
  have g1 := hr (1 + k)
  have g2 := hr (2 + k)
  have g3 := hr (3 + k)
  have g5 := hr (5 + k)
  have g6 := hr (6 + k)
  have g7 := hr (7 + k)
  set t : ℤ := ⌊r k * 4⌋ with hts
  interval_cases t
  · -- circle
    refine ⟨.circle (r (k + 1) * 800) (r (k + 2) * 600) ((10 + r (k + 3) * 100) / 2)
        (.color (colors.getD (Int.toNat ⌊r (k + 4) * (colors.length : ℚ)⌋) ""))
        (0.2 + r (k + 5) * 0.5), k + 6, ?_, ?_⟩
    · simp only [drawShape, ← hts]
      norm_num [Ctx.save, Ctx.draw, Ctx.restore]
    · simp only [primOkb, posb, sizeb, alphab, paintIn, Bool.and_eq_true, decide_eq_true_eq]
      repeat' apply And.intro
      all_goals first
        | trivial
        | exact hcontains
        | linarith [h1.1, h1.2, h2.1, h2.2, h3.1, h3.2, h5.1, h5.2, g1.1, g1.2, g2.1, g2.2, g3.1, g3.2, g5.1, g5.2]
  · -- rectangle
    refine ⟨.rect (r (k + 1) * 800) (r (k + 2) * 600) (10 + r (k + 3) * 100)
        ((10 + r (k + 3) * 100) * 0.6)
        (.color (colors.getD (Int.toNat ⌊r (k + 4) * (colors.length : ℚ)⌋) ""))
        (0.2 + r (k + 5) * 0.5), k + 6, ?_, ?_⟩
    · simp only [drawShape, ← hts]
      norm_num [Ctx.save, Ctx.draw, Ctx.restore]
    · simp only [primOkb, posb, sizeb, alphab, paintIn, Bool.and_eq_true, decide_eq_true_eq]
      repeat' apply And.intro
      all_goals first
        | trivial
        | exact hcontains
        | linarith [h1.1, h1.2, h2.1, h2.2, h3.1, h3.2, h5.1, h5.2, g1.1, g1.2, g2.1, g2.2, g3.1, g3.2, g5.1, g5.2]
  · -- triangle
    refine ⟨.tri (r (k + 1) * 800) (r (k + 2) * 600 - (10 + r (k + 3) * 100) / 2)
        (r (k + 1) * 800 - (10 + r (k + 3) * 100) / 2) (r (k + 2) * 600 + (10 + r (k + 3) * 100) / 2)
        (r (k + 1) * 800 + (10 + r (k + 3) * 100) / 2) (r (k + 2) * 600 + (10 + r (k + 3) * 100) / 2)
        (.color (colors.getD (Int.toNat ⌊r (k + 4) * (colors.length : ℚ)⌋) ""))
        (0.2 + r (k + 5) * 0.5), k + 6, ?_, ?_⟩
    · simp only [drawShape, ← hts]
      norm_num [Ctx.save, Ctx.draw, Ctx.restore]
    · simp only [primOkb, posb, sizeb, alphab, paintIn, Bool.and_eq_true, decide_eq_true_eq]
      repeat' apply And.intro
      all_goals first
        | trivial
        | exact hcontains
        | ring1
        | linarith [h1.1, h1.2, h2.1, h2.2, h3.1, h3.2, h5.1, h5.2, g1.1, g1.2, g2.1, g2.2, g3.1, g3.2, g5.1, g5.2]
  · -- line
    refine ⟨.line (r (k + 1) * 800) (r (k + 2) * 600) (r (k + 1) * 800 + (10 + r (k + 3) * 100))
        (r (k + 2) * 600 + (r (k + 7) - 0.5) * 100) (2 + r (k + 6) * 8)
        c.state.strokeStyle
        (.color (colors.getD (Int.toNat ⌊r (k + 4) * (colors.length : ℚ)⌋) ""))
        (0.2 + r (k + 5) * 0.5), k + 8, ?_, ?_⟩
    · simp only [drawShape, ← hts]
      norm_num [Ctx.save, Ctx.draw, Ctx.restore]
    · simp only [primOkb, posb, sizeb, alphab, lwb, paintIn, Bool.and_eq_true, decide_eq_true_eq]
      repeat' apply And.intro
      all_goals first
        | trivial
        | exact hcontains
        | exact hstroke
        | linarith [h1.1, h1.2, h2.1, h2.2, h3.1, h3.2, h5.1, h5.2, h6.1, h6.2, h7.1, h7.2, g1.1, g1.2, g2.1, g2.2, g3.1, g3.2, g5.1, g5.2, g6.1, g6.2, g7.1, g7.2]

/-- The 20-iteration loop appends exactly one conforming primitive per
iteration and preserves the context state and stack. -/
theorem shapesLoop_spec (colors : List String) (r : RSrc) (hr : validR r) (hc : colors ≠ []) :
    ∀ (n : Nat) (c : Ctx) (k : Nat), c.state.strokeStyle = FillStyle.color "#000000" →
      ∃ l kn, shapesLoop colors r n c k = ({ c with drawn := c.drawn ++ l }, kn) ∧
        l.length = n ∧ l.all (primOkb colors) = true := by
  intro n
  induction n with
  | zero =>
    intro c k _
    exact ⟨[], k, by simp [shapesLoop], rfl, rfl⟩
  | succ n ih =>
    intro c k hstroke
    obtain ⟨p, k1, hstep, hp⟩ := drawShape_spec colors r c k hr hc hstroke
    obtain ⟨l, kn, hloop, hlen, hall⟩ := ih { c with drawn := c.drawn ++ [p] } k1 hstroke
    refine ⟨p :: l, kn, ?_, by simp [hlen], by simp [hp, hall]⟩
    simp only [shapesLoop]
    rw [hstep]
    simp only [hloop, List.append_assoc, List.singleton_append]

theorem genShapes_spec (colors : List String) (r : RSrc) (s0 : CtxState) (k : Nat)
    (hr : validR r) (hc : colors ≠ []) (hs : s0.strokeStyle = FillStyle.color "#000000") :
    (generateAIShapes colors r ⟨s0, [], []⟩ k).1.state = s0 ∧
    (generateAIShapes colors r ⟨s0, [], []⟩ k).1.stack = [] ∧
    (generateAIShapes colors r ⟨s0, [], []⟩ k).1.drawn.length = 20 ∧
    (generateAIShapes colors r ⟨s0, [], []⟩ k).1.drawn.all (primOkb colors) = true := by
  obtain ⟨l, kn, hloop, hlen, hall⟩ := shapesLoop_spec colors r hr hc 20 ⟨s0, [], []⟩ k hs
  unfold generateAIShapes
  rw [hloop]
  exact ⟨rfl, rfl, by simp [hlen], by simpa using hall⟩

/-- When the shape-type sample floors to 3, the iteration draws a line
stroked with the context's current `strokeStyle` (which the program never
sets, so it stays the default black); the palette color sampled for the
shape only lands in the fill state. -/
theorem drawShape_line (colors : List String) (r : RSrc) (c : Ctx) (k : Nat)
    (ht : ⌊r k * 4⌋ = (3 : ℤ)) :
    drawShape colors r c k =
      ({ c with drawn := c.drawn ++ [Prim.line (r (k + 1) * 800) (r (k + 2) * 600)
          (r (k + 1) * 800 + (10 + r (k + 3) * 100))
          (r (k + 2) * 600 + (r (k + 7) - 0.5) * 100) (2 + r (k + 6) * 8)
          c.state.strokeStyle
          (FillStyle.color (colors.getD (Int.toNat ⌊r (k + 4) * (colors.length : ℚ)⌋) ""))
          (0.2 + r (k + 5) * 0.5)] }, k + 8) := by
  simp only [drawShape, ht]
  norm_num [Ctx.save, Ctx.draw, Ctx.restore]

/-! ### Concrete random streams and measure used by witnesses -/

/-- A constant valid random stream. -/
def rHalf : RSrc := fun _ => 1/2

theorem rHalf_valid : validR rHalf := by
  intro i
  constructor <;> norm_num [rHalf]

/-- A valid random stream on which every iteration draws a line (the
shape-type sample floors to 3 every 8 draws, all other samples are 0, so
every line has vertical offset exactly -50). -/
def rLine : RSrc := fun k => if k % 8 = 0 then 3/4 else 0

theorem rLine_valid : validR rLine := by
  intro i
  unfold rLine
  split <;> norm_num

/-- A text measure under which every line fits. -/
def measure0 : String → ℚ := fun _ => 0

/-- If some already-drawn primitive falsifies `q`, the whole log after any
number of further iterations still falsifies `q`. -/
theorem shapesLoop_all_false (colors : List String) (r : RSrc) (q : Prim → Bool)
    (n : Nat) (c : Ctx) (k : Nat) (hr : validR r) (hc : colors ≠ [])
    (hstroke : c.state.strokeStyle = FillStyle.color "#000000")
    (hfalse : c.drawn.all q = false) :
    (shapesLoop colors r n c k).1.drawn.all q = false := by
  obtain ⟨l, kn, hloop, -, -⟩ := shapesLoop_spec colors r hr hc n c k hstroke
  rw [hloop]
  simp [List.all_append, hfalse]

/-- C5 (amended): every compose call draws exactly 20 primitives, each with
position uniform over the 800x600 canvas, size in `[10, 110)`, opacity in
`[0.2, 0.7)`; a palette color is sampled uniformly for every shape and set
as the fill style, with which circles, rectangles and triangles are filled,
while a line is stroked with the context's default black stroke style and
has stroke width in `[2, 10)` and a segment from `(x, y)` to
`(x + size, y + d)` with `d` in the half-open interval `[-50, 50)`; the
context state (opacity, colors, line width) is restored after each shape,
so the state and stack after the call equal the initial ones. -/
theorem shape_sampling_spec (colors : List String) (r : RSrc) (s0 : CtxState) (k : Nat)
    (hr : validR r) (hc : colors ≠ []) (hs : s0.strokeStyle = FillStyle.color "#000000") :
    (generateAIShapes colors r ⟨s0, [], []⟩ k).1.state = s0 ∧
    (generateAIShapes colors r ⟨s0, [], []⟩ k).1.stack = [] ∧
    (generateAIShapes colors r ⟨s0, [], []⟩ k).1.drawn.length = 20 ∧
    (generateAIShapes colors r ⟨s0, [], []⟩ k).1.drawn.all (primOkb colors) = true :=
  genShapes_spec colors r s0 k hr hc hs

/-- The canvas-default context state. -/
def ctxState0 : CtxState :=
  { globalAlpha := 1, fillStyle := .color "#000000", strokeStyle := .color "#000000", lineWidth := 1 }

theorem shape_sampling_spec_witness :
    (generateAIShapes (paletteFor "abstract") rHalf ⟨ctxState0, [], []⟩ 0).1.state = ctxState0 ∧
    (generateAIShapes (paletteFor "abstract") rHalf ⟨ctxState0, [], []⟩ 0).1.stack = [] ∧
    (generateAIShapes (paletteFor "abstract") rHalf ⟨ctxState0, [], []⟩ 0).1.drawn.length = 20 ∧
    (generateAIShapes (paletteFor "abstract") rHalf ⟨ctxState0, [], []⟩ 0).1.drawn.all
      (primOkb (paletteFor "abstract")) = true :=
  shape_sampling_spec (paletteFor "abstract") rHalf ctxState0 0 rHalf_valid (by decide) rfl

/-- C5 counterexample: on the valid stream `rLine` every drawn shape is a
line whose vertical offset is exactly -50 (outside the claimed open
interval `(-50, 50)`) and whose stroke color is the default black rather
than a palette color, so the claimed per-shape property fails for a
compose call. -/
theorem shape_sampling_cex :
    (generateAIImage measure0 rLine "1/1/2025" "hello world" "abstract").shapes.all
      (primOkClaimb (paletteFor "abstract")) = false := by
  show (generateAIShapes (paletteFor "abstract") rLine (initShapeCtx (paletteFor "abstract")) 0).1.drawn.all
      (primOkClaimb (paletteFor "abstract")) = false
  rw [show generateAIShapes (paletteFor "abstract") rLine (initShapeCtx (paletteFor "abstract")) 0 =
      shapesLoop (paletteFor "abstract") rLine 19
        (drawShape (paletteFor "abstract") rLine (initShapeCtx (paletteFor "abstract")) 0).1
        (drawShape (paletteFor "abstract") rLine (initShapeCtx (paletteFor "abstract")) 0).2 from rfl]
  rw [drawShape_line (paletteFor "abstract") rLine (initShapeCtx (paletteFor "abstract")) 0 (by norm_num [rLine])]
  apply shapesLoop_all_false
  · exact rLine_valid
  · decide
  · rfl
  · have hblack : paintIn (paletteFor "abstract") (FillStyle.color "#000000") = false := by decide
    simp [initShapeCtx, primOkClaimb, hblack]

/-- C4 (amended): for a style name absent from the palette table the lookup
falls back to the "abstract" palette instead of failing, so the composed
image's gradient stops come from the abstract palette and every shape's
sampled color is drawn from it (with lines stroked in the context's default
black, as always); for each style name present in the table the lookup
returns that style's own color list. -/
theorem palette_fallback_spec (style : String) (m : String → ℚ) (r : RSrc) (d p : String)
    (hr : validR r) (hnone : aiTemplates.lookup style = none) :
    paletteFor style = ["#FF6B6B", "#4ECDC4", "#45B7D1", "#96CEB4", "#FFEAA7"] ∧
    (generateAIImage m r d p style).gradStop0 = "#FF6B6B" ∧
    (generateAIImage m r d p style).gradStop1 = "#4ECDC4" ∧
    (generateAIImage m r d p style).shapes.all
      (primOkb ["#FF6B6B", "#4ECDC4", "#45B7D1", "#96CEB4", "#FFEAA7"]) = true ∧
    (paletteFor "abstract" = ["#FF6B6B", "#4ECDC4", "#45B7D1", "#96CEB4", "#FFEAA7"] ∧
     paletteFor "nature" = ["#2E8B57", "#3CB371", "#98FB98", "#8FBC8F", "#00FA9A"] ∧
     paletteFor "tech" = ["#4169E1", "#1E90FF", "#00BFFF", "#87CEEB", "#4682B4"] ∧
     paletteFor "sunset" = ["#FF6B6B", "#FFA726", "#FFEAA7", "#FD79A8", "#E17055"] ∧
     paletteFor "ocean" = ["#0077B6", "#00B4D8", "#90E0EF", "#CAF0F8", "#03045E"]) := by
  have hpal : paletteFor style = ["#FF6B6B", "#4ECDC4", "#45B7D1", "#96CEB4", "#FFEAA7"] := by
    unfold paletteFor
    rw [hnone]
    decide
  refine ⟨hpal, ?_, ?_, ?_, by decide⟩
  · show (paletteFor style).getD 0 "" = "#FF6B6B"
    rw [hpal]
    decide
  · show (paletteFor style).getD 1 "" = "#4ECDC4"
    rw [hpal]
    decide
  · show (generateAIShapes (paletteFor style) r (initShapeCtx (paletteFor style)) 0).1.drawn.all
      (primOkb ["#FF6B6B", "#4ECDC4", "#45B7D1", "#96CEB4", "#FFEAA7"]) = true
    rw [hpal]
    exact (genShapes_spec ["#FF6B6B", "#4ECDC4", "#45B7D1", "#96CEB4", "#FFEAA7"] r
      (initShapeCtx ["#FF6B6B", "#4ECDC4", "#45B7D1", "#96CEB4", "#FFEAA7"]).state 0 hr
      (by decide) rfl).2.2.2

theorem palette_fallback_spec_witness :
    aiTemplates.lookup "portrait" = none ∧
      (paletteFor "portrait" = ["#FF6B6B", "#4ECDC4", "#45B7D1", "#96CEB4", "#FFEAA7"] ∧
       (generateAIImage measure0 rHalf "1/1/2025" "hi" "portrait").gradStop0 = "#FF6B6B" ∧
       (generateAIImage measure0 rHalf "1/1/2025" "hi" "portrait").gradStop1 = "#4ECDC4" ∧
       (generateAIImage measure0 rHalf "1/1/2025" "hi" "portrait").shapes.all
         (primOkb ["#FF6B6B", "#4ECDC4", "#45B7D1", "#96CEB4", "#FFEAA7"]) = true ∧
       (paletteFor "abstract" = ["#FF6B6B", "#4ECDC4", "#45B7D1", "#96CEB4", "#FFEAA7"] ∧
        paletteFor "nature" = ["#2E8B57", "#3CB371", "#98FB98", "#8FBC8F", "#00FA9A"] ∧
        paletteFor "tech" = ["#4169E1", "#1E90FF", "#00BFFF", "#87CEEB", "#4682B4"] ∧
        paletteFor "sunset" = ["#FF6B6B", "#FFA726", "#FFEAA7", "#FD79A8", "#E17055"] ∧
        paletteFor "ocean" = ["#0077B6", "#00B4D8", "#90E0EF", "#CAF0F8", "#03045E"])) :=
  ⟨by decide, palette_fallback_spec "portrait" measure0 rHalf "1/1/2025" "hi" rHalf_valid (by decide)⟩

/-- C4 counterexample: for the unknown style "portrait" (which resolves to
the abstract palette) a compose call on the valid stream `rLine` draws line
primitives stroked with the default black `#000000`, a color that is not in
the abstract color list — so it is not true that all shape colors are drawn
from the fallback palette. -/
theorem palette_fallback_cex :
    (generateAIImage measure0 rLine "1/1/2025" "hello" "portrait").shapes.all
      (fun pr => paintIn (paletteFor "portrait") pr.paint) = false := by
  show (generateAIShapes (paletteFor "portrait") rLine (initShapeCtx (paletteFor "portrait")) 0).1.drawn.all
      (fun pr => paintIn (paletteFor "portrait") pr.paint) = false
  rw [show generateAIShapes (paletteFor "portrait") rLine (initShapeCtx (paletteFor "portrait")) 0 =
      shapesLoop (paletteFor "portrait") rLine 19
        (drawShape (paletteFor "portrait") rLine (initShapeCtx (paletteFor "portrait")) 0).1
        (drawShape (paletteFor "portrait") rLine (initShapeCtx (paletteFor "portrait")) 0).2 from rfl]
  rw [drawShape_line (paletteFor "portrait") rLine (initShapeCtx (paletteFor "portrait")) 0 (by norm_num [rLine])]
  apply shapesLoop_all_false
  · exact rLine_valid
  · decide
  · rfl
  · have hblack : paintIn (paletteFor "portrait") (FillStyle.color "#000000") = false := by decide
    simp [initShapeCtx, Prim.paint, hblack]

/-- Invariant of the greedy fill loop: the current line and every emitted
line either measure under 700 or are single words of the prompt. -/
theorem wrapLoop_ok (measure : String → ℚ) (words : List String) :
    ∀ (ws : List String) (current : String) (lines : List String),
      (∀ w ∈ ws, w ∈ words) →
      (measure current < 700 ∨ current ∈ words) →
      (∀ l ∈ lines, measure l < 700 ∨ l ∈ words) →
      ∀ l ∈ wrapLoop measure ws current lines, measure l < 700 ∨ l ∈ words := by
  intro ws
  induction ws with
  | nil =>
    intro current lines _ hcur hlines l hl
    simp only [wrapLoop] at hl
    rcases List.mem_append.mp hl with h | h
    · exact hlines l h
    · simp only [List.mem_singleton] at h
      subst h
      exact hcur
  | cons w ws ih =>
    intro current lines hws hcur hlines l hl
    simp only [wrapLoop] at hl
    by_cases htest : measure (current ++ " " ++ w) < 700
    · rw [if_pos htest] at hl
      exact ih (current ++ " " ++ w) lines (fun x hx => hws x (List.mem_cons_of_mem _ hx))
        (Or.inl htest) hlines l hl
    · rw [if_neg htest] at hl
      refine ih w (lines ++ [current]) (fun x hx => hws x (List.mem_cons_of_mem _ hx))
        (Or.inr (hws w (List.mem_cons_self _ _))) ?_ l hl
      intro x hx
      rcases List.mem_append.mp hx with h | h
      · exact hlines x h
      · simp only [List.mem_singleton] at h
        subst h
        exact hcur

/-- C6: the greedy word-wrap fills lines word by word, starting a new line
only when appending the next word would reach the 700px threshold; as a
result every produced line either measures strictly under 700px at the
fixed font or is a single word of the prompt — in particular a word wider
than the threshold is placed alone on its own line, unbroken. -/
theorem wrap_width_spec (measure : String → ℚ) (prompt : String) :
    (wrapText measure prompt).all
      (fun l => decide (measure l < 700) || decide (l ∈ jsSplit prompt)) = true := by
  rw [List.all_eq_true]
  intro l hl
  simp only [Bool.or_eq_true, decide_eq_true_eq]
  unfold wrapText at hl
  cases hsplit : jsSplit prompt with
  | nil => exact absurd hsplit (jsSplit_ne_nil prompt)
  | cons w ws =>
    rw [hsplit] at hl
    exact wrapLoop_ok measure (w :: ws) ws w [] (fun x hx => List.mem_cons_of_mem _ hx)
      (Or.inr (List.mem_cons_self _ _)) (by simp) l hl

/-! ### The image-listing endpoint (`GET /api/images`, server.js lines 201-227) -/

/-- The fixed server port. -/
def PORT : Nat := 5000

/-- One element of the `images` array of a list-images response. -/
structure ImgEntry where
  filename : String
  url : String
  created : String
  size : String
deriving DecidableEq, Repr

/-- A successful list-images response body. -/
structure ImagesResponse where
  success : Bool
  count : Nat
  images : List ImgEntry
deriving DecidableEq, Repr

/-- Models `Array.prototype.sort` with a comparator: a stable sort that
keeps `x` before `y` whenever `cmp x y ≤ 0`.  Insertion sort is
extensionally the stable sort ECMAScript requires for a consistent
comparator. -/
def jsInsert {α : Type} (cmp : α → α → Int) (x : α) : List α → List α
  | [] => [x]
  | y :: ys => if cmp x y ≤ 0 then x :: y :: ys else y :: jsInsert cmp x ys

def jsSortBy {α : Type} (cmp : α → α → Int) (l : List α) : List α :=
  l.foldr (jsInsert cmp) []

/-- One listed entry (lines 205-213).  `created` is stamped with the
current request time (`new Date().toISOString()`), never with a filesystem
timestamp; `sz` models `statSync(path).size` and `fmtKB` the
`(size/1024).toFixed(1) + " KB"` formatting. -/
def mkImgEntry (dir now : String) (sz : String → Nat) (fmtKB : Nat → String) (f : String) : ImgEntry :=
  { filename := f,
    url := "http://localhost:" ++ natStr PORT ++ "/images/" ++ f,
    created := now,
    size := fmtKB (sz (dir ++ "/" ++ f)) }

/-- Translation of the `GET /api/images` handler: scan the directory
listing, keep only names ending in `.png`, build the entry records, sort
descending by parsed `created` (`dateVal` models `new Date(string)`
valueOf), and report the count of the resulting array. -/
def listImagesHandler (dir : String) (entries : List String) (now : String)
    (sz : String → Nat) (fmtKB : Nat → String) (dateVal : String → Int) : ImagesResponse :=
  let files := (entries.filter (fun f => f.endsWith ".png")).map (mkImgEntry dir now sz fmtKB)
  let sorted := jsSortBy (fun a b => dateVal b.created - dateVal a.created) files
  { success := true, count := sorted.length, images := sorted }

theorem jsSortBy_of_cmp_nonpos {α : Type} (cmp : α → α → Int) :
    ∀ l : List α, (∀ a ∈ l, ∀ b ∈ l, cmp a b ≤ 0) → jsSortBy cmp l = l := by
  intro l
  induction l with
  | nil => intro _; rfl
  | cons x xs ih =>
    intro h
    show jsInsert cmp x (jsSortBy cmp xs) = x :: xs
    rw [ih (fun a ha b hb => h a (List.mem_cons_of_mem _ ha) b (List.mem_cons_of_mem _ hb))]
    cases xs with
    | nil => rfl
    | cons y ys =>
      show (if cmp x y ≤ 0 then x :: y :: ys else y :: jsInsert cmp x ys) = x :: y :: ys
      rw [if_pos (h x (List.mem_cons_self _ _) y (List.mem_cons_of_mem _ (List.mem_cons_self _ _)))]

/-- All entries carry the same `created` stamp, so every comparator call
returns 0 and the sort leaves the array in scan order. -/
theorem listImages_sort_noop (dir : String) (entries : List String) (now : String)
    (sz : String → Nat) (fmtKB : Nat → String) (dateVal : String → Int) :
    jsSortBy (fun a b => dateVal b.created - dateVal a.created)
        ((entries.filter (fun f => f.endsWith ".png")).map (mkImgEntry dir now sz fmtKB)) =
      (entries.filter (fun f => f.endsWith ".png")).map (mkImgEntry dir now sz fmtKB) := by
  apply jsSortBy_of_cmp_nonpos
  intro a ha b hb
  obtain ⟨fa, -, rfl⟩ := List.mem_map.mp ha
  obtain ⟨fb, -, rfl⟩ := List.mem_map.mp hb
  simp [mkImgEntry]

/-- C7: a successful list-images response contains exactly the directory
entries whose name ends with `.png` (in particular no other entries), and
its `count` field equals the length of its `images` array. -/
theorem list_images_filter_count (dir : String) (entries : List String) (now : String)
    (sz : String → Nat) (fmtKB : Nat → String) (dateVal : String → Int) :
    (listImagesHandler dir entries now sz fmtKB dateVal).count =
      (listImagesHandler dir entries now sz fmtKB dateVal).images.length ∧
    (listImagesHandler dir entries now sz fmtKB dateVal).images.map (fun e => e.filename) =
      entries.filter (fun f => f.endsWith ".png") := by
  constructor
  · rfl
  · show (jsSortBy (fun a b => dateVal b.created - dateVal a.created)
        ((entries.filter (fun f => f.endsWith ".png")).map (mkImgEntry dir now sz fmtKB))).map
          (fun e => e.filename) = entries.filter (fun f => f.endsWith ".png")
    rw [listImages_sort_noop, List.map_map]
    exact List.map_id (entries.filter (fun f => f.endsWith ".png"))

/-- C8: every listed entry's `created` field is stamped with the request's
current time (the file's actual creation time is never read), so all
entries of one response carry the same timestamp and the descending sort by
`created` is a no-op: the `images` array is exactly the filtered
directory-scan order. -/
theorem list_images_created_stamp (dir : String) (entries : List String) (now : String)
    (sz : String → Nat) (fmtKB : Nat → String) (dateVal : String → Int) :
    (listImagesHandler dir entries now sz fmtKB dateVal).images =
      (entries.filter (fun f => f.endsWith ".png")).map (mkImgEntry dir now sz fmtKB) ∧
    (listImagesHandler dir entries now sz fmtKB dateVal).images.all
      (fun e => e.created == now) = true := by
  have himg : (listImagesHandler dir entries now sz fmtKB dateVal).images =
      (entries.filter (fun f => f.endsWith ".png")).map (mkImgEntry dir now sz fmtKB) :=
    listImages_sort_noop dir entries now sz fmtKB dateVal
  refine ⟨himg, ?_⟩
  rw [himg, List.all_eq_true]
  intro e he
  obtain ⟨f, -, rfl⟩ := List.mem_map.mp he
  simp [mkImgEntry]

/-! ### The styles endpoint (`GET /api/styles`, server.js lines 229-238) -/

/-- One element of the `styles` array. -/
structure StyleEntry where
  name : String
  colors : List String
  displayName : String
deriving DecidableEq, Repr

/-- Models `style.charAt(0).toUpperCase() + style.slice(1)` (on the empty
string, `charAt(0)` is `""` and the result is `""`). -/
def capitalize (s : String) : String :=
  match s.data with
  | [] => ""
  | c :: cs => ⟨Char.toUpper c :: cs⟩

/-- Translation of the `GET /api/styles` handler: one entry per key of the
palette table, in table order, with the style's palette and its name with
the first character capitalized. -/
def stylesHandler : List StyleEntry :=
  aiTemplates.map (fun kv => { name := kv.1, colors := kv.2, displayName := capitalize kv.1 })

/-- C9: the styles payload is the fixed list of exactly the five named
styles, each carrying its palette's color list and a `displayName` equal to
the style name with its first character capitalized.  The handler reads no
request data and no mutable state, so any two calls (in particular two
successive ones) return this same value. -/
theorem styles_payload_spec :
    stylesHandler =
      [⟨"abstract", ["#FF6B6B", "#4ECDC4", "#45B7D1", "#96CEB4", "#FFEAA7"], "Abstract"⟩,
       ⟨"nature", ["#2E8B57", "#3CB371", "#98FB98", "#8FBC8F", "#00FA9A"], "Nature"⟩,
       ⟨"tech", ["#4169E1", "#1E90FF", "#00BFFF", "#87CEEB", "#4682B4"], "Tech"⟩,
       ⟨"sunset", ["#FF6B6B", "#FFA726", "#FFEAA7", "#FD79A8", "#E17055"], "Sunset"⟩,
       ⟨"ocean", ["#0077B6", "#00B4D8", "#90E0EF", "#CAF0F8", "#03045E"], "Ocean"⟩] := by
  decide

/-! ### The generate endpoint (`POST /api/generate`, server.js lines 162-199) -/

/-- A parsed request body: `prompt` may be absent, `style` defaults to
`"abstract"` via the destructuring default. -/
structure GenRequest where
  prompt : Option String
  style : Option String
deriving DecidableEq, Repr

/-- The handler's JSON response: the success body (lines 182-190) or an
error with an HTTP status (lines 166-171). -/
inductive GenResponse where
  | ok (filename prompt style url timestamp message : String)
  | err (status : Nat) (error : String)
deriving DecidableEq, Repr

/-- Translation of the `POST /api/generate` handler.  The returned list is
the log of `writeFileSync` calls (path and composed image); the validation
`!prompt || prompt.trim().length === 0` rejects a missing prompt, the empty
string (falsy), and whitespace-only prompts. -/
def generateHandler (dir : String) (m : String → ℚ) (r : RSrc) (clock : Clock)
    (uuid localeDate : String) (req : GenRequest) : GenResponse × List (String × AIImage) :=
  match req.prompt with
  | none => (.err 400 "Prompt is required", [])
  | some p =>
    if p = "" ∨ (jsTrim p).length = 0 then
      (.err 400 "Prompt is required", [])
    else
      let style := req.style.getD "abstract"
      let filename := generateFilename clock uuid p style
      let filePath := dir ++ "/" ++ filename
      let canvas := generateAIImage m r localeDate p style
      (.ok filename p style ("http://localhost:" ++ natStr PORT ++ "/images/" ++ filename)
        clock.isoString "AI image generated successfully!", [(filePath, canvas)])

/-- The handler's validation condition holds exactly for all-whitespace
(including empty) prompts. -/
theorem blank_cond_iff (p : String) :
    (p = "" ∨ (jsTrim p).length = 0) ↔ p.data.all Char.isWhitespace = true := by
  constructor
  · rintro (rfl | h)
    · rfl
    · have hdata : (jsTrim p).data = [] := List.length_eq_zero.mp h
      exact (jsTrim_eq_empty_iff p).mp (String.ext hdata)
  · intro h
    right
    rw [(jsTrim_eq_empty_iff p).mpr h]
    rfl

/-- The handler as a single equation over a spec-side blankness test. -/
theorem generateHandler_eq (dir : String) (m : String → ℚ) (r : RSrc) (clock : Clock)
    (uuid localeDate : String) (op st : Option String) :
    generateHandler dir m r clock uuid localeDate ⟨op, st⟩ =
      match op with
      | none => (.err 400 "Prompt is required", [])
      | some p =>
        if p.data.all Char.isWhitespace then
          (.err 400 "Prompt is required", [])
        else
          (.ok (generateFilename clock uuid p (st.getD "abstract")) p (st.getD "abstract")
            ("http://localhost:" ++ natStr PORT ++ "/images/" ++
              generateFilename clock uuid p (st.getD "abstract"))
            clock.isoString "AI image generated successfully!",
           [(dir ++ "/" ++ generateFilename clock uuid p (st.getD "abstract"),
             generateAIImage m r localeDate p (st.getD "abstract"))]) := by
  cases op with
  | none => rfl
  | some p =>
    show (if p = "" ∨ (jsTrim p).length = 0 then ((.err 400 "Prompt is required", []) : GenResponse × List (String × AIImage))
      else (.ok (generateFilename clock uuid p (st.getD "abstract")) p (st.getD "abstract")
        ("http://localhost:" ++ natStr PORT ++ "/images/" ++ generateFilename clock uuid p (st.getD "abstract"))
        clock.isoString "AI image generated successfully!",
       [(dir ++ "/" ++ generateFilename clock uuid p (st.getD "abstract"),
         generateAIImage m r localeDate p (st.getD "abstract"))])) = _
    by_cases hb : p.data.all Char.isWhitespace
    · rw [if_pos ((blank_cond_iff p).mpr hb)]
      simp only [hb, if_true]
    · rw [if_neg (fun hh => hb ((blank_cond_iff p).mp hh))]
      simp only [hb, Bool.false_eq_true, if_false]

/-- C1: a generate request whose prompt is missing, empty, or entirely
whitespace is answered with status 400 and body error "Prompt is required",
and nothing is written to the image store (no file, hence no composed image
or generated filename is ever used); for any other prompt the validation
passes and processing proceeds to the success response, writing exactly one
file. -/
theorem generate_blank_prompt_spec (dir : String) (m : String → ℚ) (r : RSrc) (clock : Clock)
    (uuid localeDate : String) (op st : Option String) :
    generateHandler dir m r clock uuid localeDate ⟨op, st⟩ =
      match op with
      | none => (.err 400 "Prompt is required", [])
      | some p =>
        if p.data.all Char.isWhitespace then
          (.err 400 "Prompt is required", [])
        else
          (.ok (generateFilename clock uuid p (st.getD "abstract")) p (st.getD "abstract")
            ("http://localhost:" ++ natStr PORT ++ "/images/" ++
              generateFilename clock uuid p (st.getD "abstract"))
            clock.isoString "AI image generated successfully!",
           [(dir ++ "/" ++ generateFilename clock uuid p (st.getD "abstract"),
             generateAIImage m r localeDate p (st.getD "abstract"))]) :=
  generateHandler_eq dir m r clock uuid localeDate op st

/-- C10: the generate endpoint performs no validation of the style field:
for every non-blank prompt and arbitrary style string the success
response's `style` field is the caller's string verbatim, the generated
filename is `ai-{style}-` followed by a style-independent tail, and the
write path embeds exactly that filename under the images directory — while
for a style unknown to the palette table the rendered image silently falls
back to the abstract palette for its background gradient. -/
theorem generate_no_style_validation (dir : String) (m : String → ℚ) (r : RSrc) (clock : Clock)
    (uuid localeDate p s : String) (hp : p.data.all Char.isWhitespace = false) :
    generateHandler dir m r clock uuid localeDate ⟨some p, some s⟩ =
      (.ok ("ai-" ++ s ++ "-" ++ filenameTail clock uuid p) p s
        ("http://localhost:" ++ natStr PORT ++ "/images/" ++
          ("ai-" ++ s ++ "-" ++ filenameTail clock uuid p))
        clock.isoString "AI image generated successfully!",
       [(dir ++ "/" ++ ("ai-" ++ s ++ "-" ++ filenameTail clock uuid p),
         generateAIImage m r localeDate p s)]) ∧
    (aiTemplates.lookup s = none →
      (generateAIImage m r localeDate p s).gradStop0 = "#FF6B6B" ∧
      (generateAIImage m r localeDate p s).gradStop1 = "#4ECDC4") := by
  constructor
  · rw [generateHandler_eq]
    simp only [hp, Bool.false_eq_true, if_false, Option.getD_some, generateFilename_eq_tail]
  · intro hnone
    have hpal : paletteFor s = ["#FF6B6B", "#4ECDC4", "#45B7D1", "#96CEB4", "#FFEAA7"] := by
      unfold paletteFor
      rw [hnone]
      decide
    constructor
    · show (paletteFor s).getD 0 "" = "#FF6B6B"
      rw [hpal]
      decide
    · show (paletteFor s).getD 1 "" = "#4ECDC4"
      rw [hpal]
      decide

theorem generate_no_style_validation_witness :
    ("a calm lake" : String).data.all Char.isWhitespace = false ∧
    aiTemplates.lookup "not a style!" = none ∧
    generateHandler "imgs" measure0 rHalf clk0 "123e4567-e89b" "1/1/2025" ⟨some "a calm lake", some "not a style!"⟩ =
      (.ok ("ai-" ++ "not a style!" ++ "-" ++ filenameTail clk0 "123e4567-e89b" "a calm lake")
        "a calm lake" "not a style!"
        ("http://localhost:" ++ natStr PORT ++ "/images/" ++
          ("ai-" ++ "not a style!" ++ "-" ++ filenameTail clk0 "123e4567-e89b" "a calm lake"))
        clk0.isoString "AI image generated successfully!",
       [("imgs" ++ "/" ++ ("ai-" ++ "not a style!" ++ "-" ++ filenameTail clk0 "123e4567-e89b" "a calm lake"),
         generateAIImage measure0 rHalf "1/1/2025" "a calm lake" "not a style!")]) ∧
    (generateAIImage measure0 rHalf "1/1/2025" "a calm lake" "not a style!").gradStop0 = "#FF6B6B" ∧
    (generateAIImage measure0 rHalf "1/1/2025" "a calm lake" "not a style!").gradStop1 = "#4ECDC4" :=
  ⟨by decide, by decide,
    (generate_no_style_validation "imgs" measure0 rHalf clk0 "123e4567-e89b" "1/1/2025"
      "a calm lake" "not a style!" (by decide)).1,
    (generate_no_style_validation "imgs" measure0 rHalf clk0 "123e4567-e89b" "1/1/2025"
      "a calm lake" "not a style!" (by decide)).2 (by decide)⟩
